import Mathlib

/-!
# MessageU server — shallow embedding and verification

This file embeds the MessageU server (protocol_structs.py, data_manager.py,
request_handler.py) in Lean 4 and proves properties of the embedding.

Bytes are modelled as natural numbers (< 256 on the wire); byte strings as
`List Nat`.  Python `struct` packing of little-endian integer fields and
fixed-width bytes fields is modelled by `packLE` / `packBytes`; `struct.pack`
raises on out-of-range integers, so theorems about integer fields carry the
corresponding range hypotheses instead of wrapping.  Fallible Python code
(`struct.error`, `UnicodeDecodeError`, sqlite integrity errors) is modelled
with `Option` / `Except Unit`.  `uuid.uuid4()` and `datetime.now()` are
modelled as explicit parameters of each request (an oracle for the generated
id and the current timestamp).
-/

set_option maxRecDepth 100000

namespace MessageU

/-- protocol_structs.py: `CLIENT_ID_SIZE = 16`. -/
def CLIENT_ID_SIZE : Nat := 16

/-- protocol_structs.py: `USERNAME_SIZE = 255`. -/
def USERNAME_SIZE : Nat := 255

/-- protocol_structs.py: `PUBLIC_KEY_SIZE = 160`. -/
def PUBLIC_KEY_SIZE : Nat := 160

/-- server.py: `SERVER_VERSION = 2`. -/
def SERVER_VERSION : Nat := 2

/-- Packing a Python `bytes` value into a fixed-width `struct` field
(format `"Ns"`): the value is truncated or padded with null bytes to
exactly `w` bytes. -/
def packBytes (w : Nat) (b : List Nat) : List Nat :=
  b.take w ++ List.replicate (w - b.length) 0

/-- Little-endian packing of an integer into `w` bytes (`struct` formats
`B`/`H`/`I` with `<`).  `struct.pack` raises when the value does not fit in
`w` bytes, so callers of the packed form are only meaningful for `n < 256^w`. -/
def packLE : Nat → Nat → List Nat
  | 0, _ => []
  | w + 1, n => n % 256 :: packLE w (n / 256)

/-- Little-endian unpacking of an integer field from its byte list. -/
def unpackLE (l : List Nat) : Nat :=
  l.foldr (fun b acc => b + 256 * acc) 0


/-! ## Protocol structures (protocol_structs.py)

Each struct's `pack` concatenates its fields in declaration order, exactly as
`struct.pack` does for the corresponding format string; `unpack` requires the
buffer to have exactly the struct's size (`struct.unpack` raises otherwise,
modelled by `none`) and reads the fields back sequentially. -/

/-- `RequestHeader`: format `<16sBHI`, size 23. -/
structure RequestHeader where
  client_id : List Nat
  version : Nat
  code : Nat
  payload_size : Nat
deriving Repr, DecidableEq

def RequestHeader.pack (h : RequestHeader) : List Nat :=
  packBytes 16 h.client_id ++ (packLE 1 h.version ++ (packLE 2 h.code ++ packLE 4 h.payload_size))

def RequestHeader.unpack (buf : List Nat) : Option RequestHeader :=
  if buf.length = 23 then
    some { client_id := buf.take 16
           version := unpackLE ((buf.drop 16).take 1)
           code := unpackLE (((buf.drop 16).drop 1).take 2)
           payload_size := unpackLE ((((buf.drop 16).drop 1).drop 2).take 4) }
  else none

/-- `RegistrationRequestPayload`: format `<255s160s`, size 415. -/
structure RegistrationRequestPayload where
  name : List Nat
  public_key : List Nat
deriving Repr, DecidableEq

def RegistrationRequestPayload.pack (p : RegistrationRequestPayload) : List Nat :=
  packBytes 255 p.name ++ packBytes 160 p.public_key

def RegistrationRequestPayload.unpack (buf : List Nat) : Option RegistrationRequestPayload :=
  if buf.length = 415 then
    some { name := buf.take 255
           public_key := (buf.drop 255).take 160 }
  else none

/-- `PublicKeyRequestPayload`: format `<16s`, size 16. -/
structure PublicKeyRequestPayload where
  client_id : List Nat
deriving Repr, DecidableEq

def PublicKeyRequestPayload.pack (p : PublicKeyRequestPayload) : List Nat :=
  packBytes 16 p.client_id

def PublicKeyRequestPayload.unpack (buf : List Nat) : Option PublicKeyRequestPayload :=
  if buf.length = 16 then some { client_id := buf.take 16 } else none

/-- `SendMessageRequestPayloadHeader`: format `<16sBI`, size 21. -/
structure SendMessageRequestPayloadHeader where
  client_id : List Nat
  message_type : Nat
  content_size : Nat
deriving Repr, DecidableEq

def SendMessageRequestPayloadHeader.pack (p : SendMessageRequestPayloadHeader) : List Nat :=
  packBytes 16 p.client_id ++ (packLE 1 p.message_type ++ packLE 4 p.content_size)

def SendMessageRequestPayloadHeader.unpack (buf : List Nat) :
    Option SendMessageRequestPayloadHeader :=
  if buf.length = 21 then
    some { client_id := buf.take 16
           message_type := unpackLE ((buf.drop 16).take 1)
           content_size := unpackLE (((buf.drop 16).drop 1).take 4) }
  else none

/-- `ResponseHeader`: format `<BHI`, size 7. -/
structure ResponseHeader where
  version : Nat
  code : Nat
  payload_size : Nat
deriving Repr, DecidableEq

def ResponseHeader.pack (h : ResponseHeader) : List Nat :=
  packLE 1 h.version ++ (packLE 2 h.code ++ packLE 4 h.payload_size)

def ResponseHeader.unpack (buf : List Nat) : Option ResponseHeader :=
  if buf.length = 7 then
    some { version := unpackLE (buf.take 1)
           code := unpackLE ((buf.drop 1).take 2)
           payload_size := unpackLE (((buf.drop 1).drop 2).take 4) }
  else none

/-- `RegistrationSuccessPayload`: format `<16s`, size 16. -/
structure RegistrationSuccessPayload where
  client_id : List Nat
deriving Repr, DecidableEq

def RegistrationSuccessPayload.pack (p : RegistrationSuccessPayload) : List Nat :=
  packBytes 16 p.client_id

def RegistrationSuccessPayload.unpack (buf : List Nat) : Option RegistrationSuccessPayload :=
  if buf.length = 16 then some { client_id := buf.take 16 } else none

/-- `ClientInfo`: format `<16s255s`, size 271. -/
structure ClientInfo where
  client_id : List Nat
  name : List Nat
deriving Repr, DecidableEq

def ClientInfo.pack (p : ClientInfo) : List Nat :=
  packBytes 16 p.client_id ++ packBytes 255 p.name

def ClientInfo.unpack (buf : List Nat) : Option ClientInfo :=
  if buf.length = 271 then
    some { client_id := buf.take 16
           name := (buf.drop 16).take 255 }
  else none

/-- `PublicKeyResponsePayload`: format `<16s160s`, size 176. -/
structure PublicKeyResponsePayload where
  client_id : List Nat
  public_key : List Nat
deriving Repr, DecidableEq

def PublicKeyResponsePayload.pack (p : PublicKeyResponsePayload) : List Nat :=
  packBytes 16 p.client_id ++ packBytes 160 p.public_key

def PublicKeyResponsePayload.unpack (buf : List Nat) : Option PublicKeyResponsePayload :=
  if buf.length = 176 then
    some { client_id := buf.take 16
           public_key := (buf.drop 16).take 160 }
  else none

/-- `MessageSentResponsePayload`: format `<16sI`, size 20. -/
structure MessageSentResponsePayload where
  client_id : List Nat
  message_id : Nat
deriving Repr, DecidableEq

def MessageSentResponsePayload.pack (p : MessageSentResponsePayload) : List Nat :=
  packBytes 16 p.client_id ++ packLE 4 p.message_id

def MessageSentResponsePayload.unpack (buf : List Nat) : Option MessageSentResponsePayload :=
  if buf.length = 20 then
    some { client_id := buf.take 16
           message_id := unpackLE ((buf.drop 16).take 4) }
  else none

/-- `PulledMessage`: header format `<16sIBI` (size 25) followed by
`msg_size`-many content bytes. -/
structure PulledMessage where
  from_client_id : List Nat
  msg_id : Nat
  msg_type : Nat
  msg_size : Nat
  content : List Nat
deriving Repr, DecidableEq

def PulledMessage.pack (m : PulledMessage) : List Nat :=
  (packBytes 16 m.from_client_id ++
    (packLE 4 m.msg_id ++ (packLE 1 m.msg_type ++ packLE 4 m.msg_size))) ++ m.content

/-- `PulledMessage.unpack_stream`: while bytes remain, slice a 25-byte header
(`struct.unpack` raises — `none` — when fewer than 25 bytes remain), then take
the next `msg_size` bytes as content.  The Python slice
`buffer[offset : offset + msg_size]` silently yields fewer bytes when the
buffer is shorter, and the loop then stops because `offset` has moved past the
end, so a truncated trailing content does NOT fail. -/
def PulledMessage.unpack_stream (buf : List Nat) : Option (List PulledMessage) :=
  if _h : buf = [] then some []
  else if buf.length < 25 then none
  else
    let header := buf.take 25
    let msg_size := unpackLE ((((header.drop 16).drop 4).drop 1).take 4)
    let content := (buf.drop 25).take msg_size
    match PulledMessage.unpack_stream ((buf.drop 25).drop msg_size) with
    | some ms =>
        some ({ from_client_id := header.take 16
                msg_id := unpackLE ((header.drop 16).take 4)
                msg_type := unpackLE (((header.drop 16).drop 4).take 1)
                msg_size := msg_size
                content := content } :: ms)
    | none => none
termination_by buf.length
decreasing_by
  simp only [List.length_drop]
  omega

/-! ## Data manager (data_manager.py, `SQLiteDataManager`)

The sqlite store is modelled as an in-memory state: the `clients` table (with
its `ID` PRIMARY KEY and `UserName UNIQUE` constraints — an INSERT violating
them raises, modelled by `Except.error`), the `messages` table whose
AUTOINCREMENT `ID` starts at 1, and a log of the mutating data-manager calls
performed (used to state which store operations a request triggers; it does
not influence behaviour). -/

/-- A row of the `clients` table. -/
structure ClientRecord where
  id : List Nat
  username : List Nat
  publicKey : List Nat
  lastSeen : Nat
deriving Repr, DecidableEq

/-- A row of the `messages` table. -/
structure StoredMessage where
  id : Nat
  toClient : List Nat
  fromClient : List Nat
  type : Nat
  content : List Nat
deriving Repr, DecidableEq

/-- A mutating data-manager invocation (for the call log). -/
inductive DMOp where
  | addClient (id username publicKey : List Nat)
  | updateLastSeen (id : List Nat)
  | addMessage (toClient fromClient : List Nat) (type : Nat) (content : List Nat)
  | deleteMessages (ids : List Nat)
deriving Repr, DecidableEq

/-- The database state. -/
structure DBState where
  clients : List ClientRecord
  messages : List StoredMessage
  nextMessageId : Nat
  log : List DMOp
deriving Repr, DecidableEq

/-- The freshly created database (empty tables, AUTOINCREMENT at 1). -/
def DBState.init : DBState := { clients := [], messages := [], nextMessageId := 1, log := [] }

/-- `username_exists`: `SELECT distinct 1 FROM clients WHERE UserName = ?`. -/
def username_exists (db : DBState) (username : List Nat) : Bool :=
  db.clients.any (fun c => decide (c.username = username))

/-- `client_id_exists`: `SELECT distinct 1 FROM clients WHERE ID = ?`. -/
def client_id_exists (db : DBState) (client_id : List Nat) : Bool :=
  db.clients.any (fun c => decide (c.id = client_id))

/-- `add_client`: `INSERT INTO clients ...`; the `ID` PRIMARY KEY and
`UserName UNIQUE` constraints make the INSERT raise an integrity error when
either value is already present. -/
def add_client (db : DBState) (client_id username public_key : List Nat) (now : Nat) :
    Except Unit DBState :=
  if db.clients.any (fun c => decide (c.id = client_id) || decide (c.username = username)) then
    .error ()
  else
    .ok { db with
          clients := db.clients ++ [⟨client_id, username, public_key, now⟩]
          log := db.log ++ [.addClient client_id username public_key] }

/-- `get_clients`: `SELECT ID, UserName FROM clients WHERE ID != ?`. -/
def get_clients (db : DBState) (exclude_id : List Nat) : List ClientRecord :=
  db.clients.filter (fun c => decide (c.id ≠ exclude_id))

/-- `get_client_by_id`: `SELECT * FROM clients WHERE ID = ?`. -/
def get_client_by_id (db : DBState) (client_id : List Nat) : Option ClientRecord :=
  db.clients.find? (fun c => decide (c.id = client_id))

/-- `update_last_seen`: `UPDATE clients SET LastSeen = ? WHERE ID = ?`
(a no-op on the rows when the id is unknown). -/
def update_last_seen (db : DBState) (client_id : List Nat) (now : Nat) : DBState :=
  { db with
    clients := db.clients.map (fun c => if c.id = client_id then { c with lastSeen := now } else c)
    log := db.log ++ [.updateLastSeen client_id] }

/-- `add_message`: `INSERT INTO messages ...` returning `cursor.lastrowid`.
(The FromClient/ToClient FOREIGN KEYs are declared but sqlite does not enforce
them by default — no `PRAGMA foreign_keys` is issued — so the insert never
checks them.) -/
def add_message (db : DBState) (to_client_id from_client_id : List Nat)
    (msg_type : Nat) (content : List Nat) : DBState × Nat :=
  let mid := db.nextMessageId
  ({ db with
     messages := db.messages ++ [⟨mid, to_client_id, from_client_id, msg_type, content⟩]
     nextMessageId := mid + 1
     log := db.log ++ [.addMessage to_client_id from_client_id msg_type content] }, mid)

/-- `get_messages_for_client`: `SELECT ... FROM messages WHERE ToClient = ?`
(rows come back in rowid order, i.e. insertion order). -/
def get_messages_for_client (db : DBState) (client_id : List Nat) : List StoredMessage :=
  db.messages.filter (fun m => decide (m.toClient = client_id))

/-- `delete_messages`: `DELETE FROM messages WHERE ID IN (...)`. -/
def delete_messages (db : DBState) (message_ids : List Nat) : DBState :=
  { db with
    messages := db.messages.filter (fun m => decide (m.id ∉ message_ids))
    log := db.log ++ [.deleteMessages message_ids] }

/-! ## Request handler (request_handler.py, `RequestHandler`)

Each `_handle_*` method returns `Except Unit (DBState × List Nat)`: `.ok`
carries the updated store and the response bytes; `.error ()` stands for an
uncaught Python exception inside the handler, which `handle_request` catches
and converts to the generic error response.  All exception points in the
handlers precede any store mutation, matching the Python control flow. -/

/-- `username.split(b'\x00', 1)[0]`: the bytes before the first null. -/
def splitAtNull (b : List Nat) : List Nat := b.takeWhile (fun x => decide (x ≠ 0))

/-- `bytes.decode('ascii')`: fails (UnicodeDecodeError) iff some byte ≥ 128;
control characters 0x00–0x1F and 0x7F decode fine. -/
def decodeAscii (b : List Nat) : Option (List Nat) :=
  if b.all (fun x => decide (x < 128)) then some b else none

/-- `_create_error_response`: header (version, `ResponseCode.ERROR` = 9000,
payload size 0) and no payload. -/
def create_error_response (version : Nat) : List Nat :=
  ResponseHeader.pack ⟨version, 9000, 0⟩

/-- `_handle_registration`.  `uuid` models the value of `uuid.uuid4().bytes`
drawn for this request and `now` the value of `datetime.now()`. -/
def handle_registration (version : Nat) (db : DBState) (uuid : List Nat) (now : Nat)
    (payload : List Nat) : Except Unit (DBState × List Nat) :=
  match RegistrationRequestPayload.unpack payload with
  | none => .error ()
  | some req =>
    match decodeAscii (splitAtNull req.name) with
    | none => .error ()
    | some username =>
      if username_exists db username then
        .ok (db, create_error_response version)
      else
        match add_client db uuid username req.public_key now with
        | .error _ => .error ()
        | .ok db2 =>
          let response_payload := RegistrationSuccessPayload.pack ⟨uuid⟩
          .ok (db2, ResponseHeader.pack ⟨version, 2100, response_payload.length⟩ ++
                      response_payload)

/-- `_handle_clients_list`. -/
def handle_clients_list (version : Nat) (db : DBState) (header_client_id : List Nat) :
    Except Unit (DBState × List Nat) :=
  let clients := get_clients db header_client_id
  let payload_data := (clients.map (fun c => ClientInfo.pack ⟨c.id, c.username⟩)).flatten
  .ok (db, ResponseHeader.pack ⟨version, 2101, payload_data.length⟩ ++ payload_data)

/-- `_handle_public_key`. -/
def handle_public_key (version : Nat) (db : DBState) (payload : List Nat) :
    Except Unit (DBState × List Nat) :=
  match PublicKeyRequestPayload.unpack payload with
  | none => .error ()
  | some req =>
    match get_client_by_id db req.client_id with
    | none => .ok (db, create_error_response version)
    | some client =>
      let response_payload := PublicKeyResponsePayload.pack ⟨client.id, client.publicKey⟩
      .ok (db, ResponseHeader.pack ⟨version, 2102, response_payload.length⟩ ++ response_payload)

/-- `_handle_send_message`. -/
def handle_send_message (version : Nat) (db : DBState) (header_client_id : List Nat)
    (payload : List Nat) : Except Unit (DBState × List Nat) :=
  if payload.length < 21 then
    .ok (db, create_error_response version)
  else
    match SendMessageRequestPayloadHeader.unpack (payload.take 21) with
    | none => .error ()
    | some req_header =>
      let content := payload.drop 21
      if client_id_exists db req_header.client_id then
        let r := add_message db req_header.client_id header_client_id req_header.message_type
                   content
        let response_payload := MessageSentResponsePayload.pack ⟨req_header.client_id, r.2⟩
        .ok (r.1, ResponseHeader.pack ⟨version, 2103, response_payload.length⟩ ++
                    response_payload)
      else
        .ok (db, create_error_response version)

/-- `_handle_pull_messages`: drain, pack each message with `len(content)` as
the size field, then delete the drained ids only when at least one message was
drained. -/
def handle_pull_messages (version : Nat) (db : DBState) (header_client_id : List Nat) :
    Except Unit (DBState × List Nat) :=
  let messages := get_messages_for_client db header_client_id
  let payload_data :=
    (messages.map (fun m =>
      PulledMessage.pack ⟨m.fromClient, m.id, m.type, m.content.length, m.content⟩)).flatten
  let message_ids_to_delete := messages.map (fun m => m.id)
  let db2 := if message_ids_to_delete ≠ [] then delete_messages db message_ids_to_delete else db
  .ok (db2, ResponseHeader.pack ⟨version, 2104, payload_data.length⟩ ++ payload_data)

/-- `handle_request`: `input` is the byte stream available on the socket for
this request (`recv` then returns its prefix of the requested size); an empty
read means the client disconnected (`none`).  A header that does not unpack
(`struct.error`), or any exception escaping a handler, is caught and answered
with the generic error response.  The `LastSeen` touch happens before dispatch
for every request code other than REGISTER = 1100, unknown codes included. -/
def handle_request (version : Nat) (db : DBState) (uuid : List Nat) (now : Nat)
    (input : List Nat) : Option (DBState × List Nat) :=
  if input = [] then none
  else
    match RequestHeader.unpack (input.take 23) with
    | none => some (db, create_error_response version)
    | some header =>
      let payload := (input.drop 23).take header.payload_size
      let db1 := if header.code ≠ 1100 then update_last_seen db header.client_id now else db
      let result :=
        if header.code = 1100 then handle_registration version db1 uuid now payload
        else if header.code = 1101 then handle_clients_list version db1 header.client_id
        else if header.code = 1102 then handle_public_key version db1 payload
        else if header.code = 1103 then handle_send_message version db1 header.client_id payload
        else if header.code = 1104 then handle_pull_messages version db1 header.client_id
        else .ok (db1, create_error_response version)
      match result with
      | .ok r => some r
      | .error _ => some (db1, create_error_response version)

/-! ## Support definitions for the statements -/

/-- Calling `add_message` once per triple `(from, type, content)` in order,
all addressed to recipient `R`, discarding the returned ids. -/
def enqueueAll (db : DBState) (R : List Nat) (ts : List (List Nat × Nat × List Nat)) : DBState :=
  ts.foldl (fun d t => (add_message d R t.1 t.2.1 t.2.2).1) db

/-- The `messages` rows that `enqueueAll` produces when the AUTOINCREMENT
counter starts at `startId`. -/
def mkMsgs (startId : Nat) (R : List Nat) : List (List Nat × Nat × List Nat) → List StoredMessage
  | [] => []
  | (f, t, c) :: ts => ⟨startId, R, f, t, c⟩ :: mkMsgs (startId + 1) R ts

/-- Processing a sequence of requests, each given as `(uuid, now, input bytes)`;
a disconnection (`none`) leaves the store as it was, as in the server's
reactor loop. -/
def runRequests (version : Nat) (db : DBState) :
    List (List Nat × Nat × List Nat) → DBState
  | [] => db
  | (uuid, now, input) :: rest =>
    match handle_request version db uuid now input with
    | some r => runRequests version r.1 rest
    | none => runRequests version db rest

/-- The directory uniqueness invariant: no two client rows share a username or
an id. -/
def ClientInv (db : DBState) : Prop :=
  db.clients.Pairwise (fun a b => a.username ≠ b.username ∧ a.id ≠ b.id)

/-- The pulled-message record the pull handler builds from a stored message:
the size field is recomputed as the stored content's length. -/
def toPulledRecord (m : StoredMessage) : PulledMessage :=
  ⟨m.fromClient, m.id, m.type, m.content.length, m.content⟩

/-- A well-formed server response: a response header carrying the server
version, one of the six protocol response codes, and the exact length of the
payload that follows — with the Error code 9000 always carrying an empty
payload. -/
def GoodResponse (v : Nat) (out : List Nat) : Prop :=
  ∃ code payload, out = ResponseHeader.pack ⟨v, code, payload.length⟩ ++ payload ∧
    (code = 2100 ∨ code = 2101 ∨ code = 2102 ∨ code = 2103 ∨ code = 2104 ∨ code = 9000) ∧
    (code = 9000 → payload = [])

/-! ## Codec lemmas -/

theorem packBytes_length (w : Nat) (b : List Nat) : (packBytes w b).length = w := by
  simp [packBytes]
  omega

theorem packBytes_of_length_eq {w : Nat} {b : List Nat} (h : b.length = w) :
    packBytes w b = b := by
  simp [packBytes, h, List.take_of_length_le (le_of_eq h)]

theorem packLE_length (w n : Nat) : (packLE w n).length = w := by
  induction w generalizing n with
  | zero => rfl
  | succ w ih => simp [packLE, ih]

theorem unpackLE_packLE {w n : Nat} (h : n < 256 ^ w) :
    unpackLE (packLE w n) = n := by
  induction w generalizing n with
  | zero =>
    simp [pow_zero] at h
    simp [packLE, unpackLE, h]
  | succ w ih =>
    have hlt : n / 256 < 256 ^ w := by
      rw [Nat.div_lt_iff_lt_mul (by norm_num)]
      calc n < 256 ^ (w + 1) := h
        _ = 256 ^ w * 256 := by ring
    have := ih hlt
    simp only [packLE, unpackLE, List.foldr_cons] at *
    rw [this]
    omega

/-- `(l₁ ++ l₂).take l₁.length = l₁`, with the length given abstractly. -/
theorem take_append_eq {l₁ l₂ : List Nat} {n : Nat} (h : l₁.length = n) :
    (l₁ ++ l₂).take n = l₁ := by
  subst h
  simp

/-- `(l₁ ++ l₂).drop l₁.length = l₂`, with the length given abstractly. -/
theorem drop_append_eq {l₁ l₂ : List Nat} {n : Nat} (h : l₁.length = n) :
    (l₁ ++ l₂).drop n = l₂ := by
  subst h
  simp

theorem requestHeader_unpack_pack (h : RequestHeader) (h1 : h.client_id.length = 16)
    (h2 : h.version < 256) (h3 : h.code < 2 ^ 16) (h4 : h.payload_size < 2 ^ 32) :
    RequestHeader.unpack (RequestHeader.pack h) = some h := by
  have hc : packBytes 16 h.client_id = h.client_id := packBytes_of_length_eq h1
  have hlen : (RequestHeader.pack h).length = 23 := by
    simp [RequestHeader.pack, packBytes_length, packLE_length]
  rw [RequestHeader.unpack, if_pos hlen, RequestHeader.pack, hc]
  rw [take_append_eq h1, drop_append_eq h1]
  rw [take_append_eq (packLE_length 1 _), drop_append_eq (packLE_length 1 _)]
  rw [take_append_eq (packLE_length 2 _), drop_append_eq (packLE_length 2 _)]
  rw [List.take_of_length_le (le_of_eq (packLE_length 4 _))]
  rw [unpackLE_packLE h2, unpackLE_packLE h3, unpackLE_packLE h4]

theorem registrationRequestPayload_unpack_pack (p : RegistrationRequestPayload)
    (h1 : p.name.length = 255) (h2 : p.public_key.length = 160) :
    RegistrationRequestPayload.unpack (RegistrationRequestPayload.pack p) = some p := by
  have hn : packBytes 255 p.name = p.name := packBytes_of_length_eq h1
  have hk : packBytes 160 p.public_key = p.public_key := packBytes_of_length_eq h2
  have hlen : (RegistrationRequestPayload.pack p).length = 415 := by
    simp [RegistrationRequestPayload.pack, packBytes_length]
  rw [RegistrationRequestPayload.unpack, if_pos hlen, RegistrationRequestPayload.pack, hn, hk]
  rw [take_append_eq h1, drop_append_eq h1]
  rw [List.take_of_length_le (le_of_eq h2)]

theorem publicKeyRequestPayload_unpack_pack (p : PublicKeyRequestPayload)
    (h1 : p.client_id.length = 16) :
    PublicKeyRequestPayload.unpack (PublicKeyRequestPayload.pack p) = some p := by
  have hc : packBytes 16 p.client_id = p.client_id := packBytes_of_length_eq h1
  have hlen : (PublicKeyRequestPayload.pack p).length = 16 := packBytes_length 16 _
  rw [PublicKeyRequestPayload.unpack, if_pos hlen, PublicKeyRequestPayload.pack, hc]
  rw [List.take_of_length_le (le_of_eq h1)]

theorem sendMessageRequestPayloadHeader_unpack_pack (p : SendMessageRequestPayloadHeader)
    (h1 : p.client_id.length = 16) (h2 : p.message_type < 256) (h3 : p.content_size < 2 ^ 32) :
    SendMessageRequestPayloadHeader.unpack (SendMessageRequestPayloadHeader.pack p) = some p := by
  have hc : packBytes 16 p.client_id = p.client_id := packBytes_of_length_eq h1
  have hlen : (SendMessageRequestPayloadHeader.pack p).length = 21 := by
    simp [SendMessageRequestPayloadHeader.pack, packBytes_length, packLE_length]
  rw [SendMessageRequestPayloadHeader.unpack, if_pos hlen,
    SendMessageRequestPayloadHeader.pack, hc]
  rw [take_append_eq h1, drop_append_eq h1]
  rw [take_append_eq (packLE_length 1 _), drop_append_eq (packLE_length 1 _)]
  rw [List.take_of_length_le (le_of_eq (packLE_length 4 _))]
  rw [unpackLE_packLE h2, unpackLE_packLE h3]

theorem responseHeader_unpack_pack (h : ResponseHeader) (h1 : h.version < 256)
    (h2 : h.code < 2 ^ 16) (h3 : h.payload_size < 2 ^ 32) :
    ResponseHeader.unpack (ResponseHeader.pack h) = some h := by
  have hlen : (ResponseHeader.pack h).length = 7 := by
    simp [ResponseHeader.pack, packLE_length]
  rw [ResponseHeader.unpack, if_pos hlen, ResponseHeader.pack]
  rw [take_append_eq (packLE_length 1 _), drop_append_eq (packLE_length 1 _)]
  rw [take_append_eq (packLE_length 2 _), drop_append_eq (packLE_length 2 _)]
  rw [List.take_of_length_le (le_of_eq (packLE_length 4 _))]
  rw [unpackLE_packLE h1, unpackLE_packLE h2, unpackLE_packLE h3]

theorem registrationSuccessPayload_unpack_pack (p : RegistrationSuccessPayload)
    (h1 : p.client_id.length = 16) :
    RegistrationSuccessPayload.unpack (RegistrationSuccessPayload.pack p) = some p := by
  have hc : packBytes 16 p.client_id = p.client_id := packBytes_of_length_eq h1
  have hlen : (RegistrationSuccessPayload.pack p).length = 16 := packBytes_length 16 _
  rw [RegistrationSuccessPayload.unpack, if_pos hlen, RegistrationSuccessPayload.pack, hc]
  rw [List.take_of_length_le (le_of_eq h1)]

theorem clientInfo_unpack_pack (p : ClientInfo) (h1 : p.client_id.length = 16)
    (h2 : p.name.length = 255) :
    ClientInfo.unpack (ClientInfo.pack p) = some p := by
  have hc : packBytes 16 p.client_id = p.client_id := packBytes_of_length_eq h1
  have hn : packBytes 255 p.name = p.name := packBytes_of_length_eq h2
  have hlen : (ClientInfo.pack p).length = 271 := by
    simp [ClientInfo.pack, packBytes_length]
  rw [ClientInfo.unpack, if_pos hlen, ClientInfo.pack, hc, hn]
  rw [take_append_eq h1, drop_append_eq h1]
  rw [List.take_of_length_le (le_of_eq h2)]

theorem publicKeyResponsePayload_unpack_pack (p : PublicKeyResponsePayload)
    (h1 : p.client_id.length = 16) (h2 : p.public_key.length = 160) :
    PublicKeyResponsePayload.unpack (PublicKeyResponsePayload.pack p) = some p := by
  have hc : packBytes 16 p.client_id = p.client_id := packBytes_of_length_eq h1
  have hk : packBytes 160 p.public_key = p.public_key := packBytes_of_length_eq h2
  have hlen : (PublicKeyResponsePayload.pack p).length = 176 := by
    simp [PublicKeyResponsePayload.pack, packBytes_length]
  rw [PublicKeyResponsePayload.unpack, if_pos hlen, PublicKeyResponsePayload.pack, hc, hk]
  rw [take_append_eq h1, drop_append_eq h1]
  rw [List.take_of_length_le (le_of_eq h2)]

theorem messageSentResponsePayload_unpack_pack (p : MessageSentResponsePayload)
    (h1 : p.client_id.length = 16) (h2 : p.message_id < 2 ^ 32) :
    MessageSentResponsePayload.unpack (MessageSentResponsePayload.pack p) = some p := by
  have hc : packBytes 16 p.client_id = p.client_id := packBytes_of_length_eq h1
  have hlen : (MessageSentResponsePayload.pack p).length = 20 := by
    simp [MessageSentResponsePayload.pack, packBytes_length, packLE_length]
  rw [MessageSentResponsePayload.unpack, if_pos hlen, MessageSentResponsePayload.pack, hc]
  rw [take_append_eq h1, drop_append_eq h1]
  rw [List.take_of_length_le (le_of_eq (packLE_length 4 _))]
  rw [unpackLE_packLE h2]

/-- One iteration of `PulledMessage.unpack_stream` on a buffer beginning with a
well-formed 25-byte record header: the declared `msg_size` bytes (or whatever
shorter remainder exists) are taken as content and decoding continues on the
rest. -/
theorem unpack_stream_step (fid : List Nat) (mid mt ms : Nat) (tail : List Nat)
    (h1 : fid.length = 16) (h2 : mid < 2 ^ 32) (h3 : mt < 256) (h4 : ms < 2 ^ 32) :
    PulledMessage.unpack_stream
        ((packBytes 16 fid ++ (packLE 4 mid ++ (packLE 1 mt ++ packLE 4 ms))) ++ tail) =
      (PulledMessage.unpack_stream (tail.drop ms)).map
        (fun rest => (⟨fid, mid, mt, ms, tail.take ms⟩ : PulledMessage) :: rest) := by
  set H : List Nat := packBytes 16 fid ++ (packLE 4 mid ++ (packLE 1 mt ++ packLE 4 ms)) with hH
  have hHlen : H.length = 25 := by
    simp [hH, packBytes_length, packLE_length]
  have hfid : packBytes 16 fid = fid := packBytes_of_length_eq h1
  have hbuflen : (H ++ tail).length = 25 + tail.length := by simp [hHlen]
  have hne : H ++ tail ≠ [] := by
    intro hcontra
    have := congrArg List.length hcontra
    simp [hbuflen] at this
  have hge : ¬ (H ++ tail).length < 25 := by omega
  rw [PulledMessage.unpack_stream, dif_neg hne, if_neg hge]
  have htake : (H ++ tail).take 25 = H := take_append_eq hHlen
  have hdrop : (H ++ tail).drop 25 = tail := drop_append_eq hHlen
  simp only [htake, hdrop]
  have hfields : H = fid ++ (packLE 4 mid ++ (packLE 1 mt ++ packLE 4 ms)) := by
    rw [hH, hfid]
  rw [hfields]
  rw [take_append_eq h1, drop_append_eq h1]
  rw [take_append_eq (packLE_length 4 _), drop_append_eq (packLE_length 4 _)]
  rw [take_append_eq (packLE_length 1 _), drop_append_eq (packLE_length 1 _)]
  rw [List.take_of_length_le (le_of_eq (packLE_length 4 _))]
  rw [unpackLE_packLE h2, unpackLE_packLE h3, unpackLE_packLE h4]
  cases hrec : PulledMessage.unpack_stream (tail.drop ms) with
  | none => simp
  | some ms' => simp

/-- `unpack_stream` on the empty buffer: no records. -/
theorem unpack_stream_nil : PulledMessage.unpack_stream [] = some [] := by
  rw [PulledMessage.unpack_stream]
  simp

/-- `unpack_stream` fails on a nonempty buffer shorter than a record header
(`struct.unpack` raises on the short slice). -/
theorem unpack_stream_short (buf : List Nat) (h0 : buf ≠ []) (h1 : buf.length < 25) :
    PulledMessage.unpack_stream buf = none := by
  rw [PulledMessage.unpack_stream, dif_neg h0, if_pos h1]

/-- `packBytes` on a value no longer than the field width: pure null-padding. -/
theorem packBytes_of_le {w : Nat} {b : List Nat} (h : b.length ≤ w) :
    packBytes w b = b ++ List.replicate (w - b.length) 0 := by
  simp [packBytes, List.take_of_length_le h]

/-- Decoding an encoded registration payload whose fields may be shorter than
their fixed widths yields the null-padded fields, not the originals. -/
theorem registration_unpack_pack_padded (name pk : List Nat)
    (h1 : name.length ≤ 255) (h2 : pk.length ≤ 160) :
    RegistrationRequestPayload.unpack (RegistrationRequestPayload.pack ⟨name, pk⟩) =
      some ⟨name ++ List.replicate (255 - name.length) 0,
            pk ++ List.replicate (160 - pk.length) 0⟩ := by
  have hncast : RegistrationRequestPayload.pack ⟨name, pk⟩ =
      RegistrationRequestPayload.pack ⟨name ++ List.replicate (255 - name.length) 0,
        pk ++ List.replicate (160 - pk.length) 0⟩ := by
    simp only [RegistrationRequestPayload.pack]
    rw [packBytes_of_le h1, packBytes_of_le h2,
      packBytes_of_length_eq (by simp; omega), packBytes_of_length_eq (by simp; omega)]
  rw [hncast]
  exact registrationRequestPayload_unpack_pack _ (by simp; omega) (by simp; omega)

/-! ## Claim C1 -/

/-- C1 counterexample: the round-trip `decode(encode(x)) = x` fails for a
registration payload whose username is shorter than the fixed 255-byte field:
`struct.unpack` returns the full null-padded field, so the decoded struct
carries `b"a" + 254 null bytes`, not `b"a"`. -/
theorem C1_counterexample :
    RegistrationRequestPayload.unpack
        (RegistrationRequestPayload.pack ⟨[97], List.replicate 160 0⟩) ≠
      some ⟨[97], List.replicate 160 0⟩ := by
  intro hcontra
  rw [registration_unpack_pack_padded [97] (List.replicate 160 0) (by decide) (by decide)]
    at hcontra
  have hname := congrArg (fun o => (Option.elim o 0 (fun p => p.name.length))) hcontra
  simp at hname

/-- C1 (amended): for every frame type, decoding the encoding of a struct
yields the original struct whenever the bytes fields have exactly their fixed
widths and the integer fields are in range (for a pulled-message record, when
the declared size equals the content length); for a bytes field shorter than
its fixed width, the decoded struct instead carries the field null-padded to
the full width. -/
theorem C1_roundtrip :
    (∀ h : RequestHeader, h.client_id.length = 16 → h.version < 256 → h.code < 2 ^ 16 →
       h.payload_size < 2 ^ 32 → RequestHeader.unpack (RequestHeader.pack h) = some h) ∧
    (∀ h : ResponseHeader, h.version < 256 → h.code < 2 ^ 16 → h.payload_size < 2 ^ 32 →
       ResponseHeader.unpack (ResponseHeader.pack h) = some h) ∧
    (∀ p : RegistrationRequestPayload, p.name.length = 255 → p.public_key.length = 160 →
       RegistrationRequestPayload.unpack (RegistrationRequestPayload.pack p) = some p) ∧
    (∀ p : PublicKeyRequestPayload, p.client_id.length = 16 →
       PublicKeyRequestPayload.unpack (PublicKeyRequestPayload.pack p) = some p) ∧
    (∀ p : PublicKeyResponsePayload, p.client_id.length = 16 → p.public_key.length = 160 →
       PublicKeyResponsePayload.unpack (PublicKeyResponsePayload.pack p) = some p) ∧
    (∀ p : SendMessageRequestPayloadHeader, p.client_id.length = 16 → p.message_type < 256 →
       p.content_size < 2 ^ 32 →
       SendMessageRequestPayloadHeader.unpack (SendMessageRequestPayloadHeader.pack p) = some p) ∧
    (∀ p : RegistrationSuccessPayload, p.client_id.length = 16 →
       RegistrationSuccessPayload.unpack (RegistrationSuccessPayload.pack p) = some p) ∧
    (∀ p : ClientInfo, p.client_id.length = 16 → p.name.length = 255 →
       ClientInfo.unpack (ClientInfo.pack p) = some p) ∧
    (∀ p : MessageSentResponsePayload, p.client_id.length = 16 → p.message_id < 2 ^ 32 →
       MessageSentResponsePayload.unpack (MessageSentResponsePayload.pack p) = some p) ∧
    (∀ m : PulledMessage, m.from_client_id.length = 16 → m.msg_id < 2 ^ 32 →
       m.msg_type < 256 → m.msg_size < 2 ^ 32 → m.msg_size = m.content.length →
       PulledMessage.unpack_stream (PulledMessage.pack m) = some [m]) ∧
    (∀ name pk : List Nat, name.length ≤ 255 → pk.length ≤ 160 →
       RegistrationRequestPayload.unpack (RegistrationRequestPayload.pack ⟨name, pk⟩) =
         some ⟨name ++ List.replicate (255 - name.length) 0,
               pk ++ List.replicate (160 - pk.length) 0⟩) := by
  refine ⟨requestHeader_unpack_pack, responseHeader_unpack_pack,
    registrationRequestPayload_unpack_pack, publicKeyRequestPayload_unpack_pack,
    publicKeyResponsePayload_unpack_pack, sendMessageRequestPayloadHeader_unpack_pack,
    registrationSuccessPayload_unpack_pack, clientInfo_unpack_pack,
    messageSentResponsePayload_unpack_pack, ?_, registration_unpack_pack_padded⟩
  rintro ⟨fid, mid, mt, ms, content⟩ h1 h2 h3 h4 h5
  simp only at h1 h2 h3 h4 h5
  subst h5
  have hpack : PulledMessage.pack ⟨fid, mid, mt, content.length, content⟩ =
      (packBytes 16 fid ++ (packLE 4 mid ++ (packLE 1 mt ++ packLE 4 content.length))) ++
        content := rfl
  rw [hpack, unpack_stream_step fid mid mt content.length content h1 h2 h3 h4,
    List.drop_length, List.take_length, unpack_stream_nil]
  rfl

/-- C1 witness: the round-trip theorem instantiated on a concrete request
header. -/
theorem C1_roundtrip_witness :
    RequestHeader.unpack (RequestHeader.pack ⟨List.replicate 16 1, 2, 1100, 415⟩) =
      some ⟨List.replicate 16 1, 2, 1100, 415⟩ :=
  C1_roundtrip.1 ⟨List.replicate 16 1, 2, 1100, 415⟩ (by decide) (by decide) (by decide)
    (by decide)

/-! ## Claim C3 -/

/-- C3 counterexample: a 27-byte buffer holding one record header that
declares 5 content bytes followed by only 2 bytes does not make the stream
decoder fail: the Python slice silently truncates, so it returns one record
whose content is the 2 remaining bytes. -/
theorem C3_counterexample :
    PulledMessage.unpack_stream
        [1, 1, 1, 1, 1, 1, 1, 1, 1, 1, 1, 1, 1, 1, 1, 1, 1, 0, 0, 0, 3, 5, 0, 0, 0, 104, 105] =
      some [⟨[1, 1, 1, 1, 1, 1, 1, 1, 1, 1, 1, 1, 1, 1, 1, 1], 1, 3, 5, [104, 105]⟩] := by
  have hbuf : ([1, 1, 1, 1, 1, 1, 1, 1, 1, 1, 1, 1, 1, 1, 1, 1, 1, 0, 0, 0, 3, 5, 0, 0, 0,
      104, 105] : List Nat) =
      (packBytes 16 [1, 1, 1, 1, 1, 1, 1, 1, 1, 1, 1, 1, 1, 1, 1, 1] ++
        (packLE 4 1 ++ (packLE 1 3 ++ packLE 4 5))) ++ [104, 105] := by decide
  rw [hbuf, unpack_stream_step _ _ _ _ _ (by decide) (by decide) (by decide) (by decide)]
  have hd : ([104, 105] : List Nat).drop 5 = [] := by decide
  have ht : ([104, 105] : List Nat).take 5 = [104, 105] := by decide
  rw [hd, ht, unpack_stream_nil]
  rfl

/-- C3 (amended): the stream decoder repeats "read a fixed 25-byte record
header, compute the declared content length, read that many content bytes"
until the buffer is exhausted, and it fails whenever the remaining bytes are
shorter than a full header; but when the bytes remaining after a header are
shorter than the declared content length it does not fail — it returns a
final record whose content is just the remaining bytes. -/
theorem C3_stream_decoder :
    (PulledMessage.unpack_stream [] = some []) ∧
    (∀ buf : List Nat, 0 < buf.length → buf.length < 25 →
       PulledMessage.unpack_stream buf = none) ∧
    (∀ fid : List Nat, ∀ mid mt ms : Nat, ∀ tail : List Nat,
       fid.length = 16 → mid < 2 ^ 32 → mt < 256 → ms < 2 ^ 32 →
       PulledMessage.unpack_stream
           ((packBytes 16 fid ++ (packLE 4 mid ++ (packLE 1 mt ++ packLE 4 ms))) ++ tail) =
         (PulledMessage.unpack_stream (tail.drop ms)).map
           (fun rest => (⟨fid, mid, mt, ms, tail.take ms⟩ : PulledMessage) :: rest)) := by
  refine ⟨unpack_stream_nil, ?_, unpack_stream_step⟩
  intro buf h0 h1
  exact unpack_stream_short buf (by intro hc; subst hc; simp at h0) h1

/-- C3 witness: the partial-header failure instantiated on the one-byte
buffer. -/
theorem C3_stream_decoder_witness : PulledMessage.unpack_stream [0] = none :=
  C3_stream_decoder.2.1 [0] (by decide) (by decide)

/-! ## Dispatcher lemmas -/

/-- `add_client` succeeds when neither the id nor the username is taken. -/
theorem add_client_ok (db : DBState) (uuid u pk : List Nat) (now : Nat)
    (hu : username_exists db u = false) (hid : client_id_exists db uuid = false) :
    add_client db uuid u pk now = .ok
      { db with
        clients := db.clients ++ [⟨uuid, u, pk, now⟩]
        log := db.log ++ [.addClient uuid u pk] } := by
  rw [username_exists] at hu
  rw [client_id_exists] at hid
  rw [add_client, if_neg]
  intro hcontra
  rw [List.any_eq_true] at hcontra
  obtain ⟨c, hc, hcc⟩ := hcontra
  rcases Bool.or_eq_true_iff.mp hcc with h | h
  · have : db.clients.any (fun c => decide (c.id = uuid)) = true :=
      List.any_eq_true.mpr ⟨c, hc, h⟩
    rw [this] at hid
    exact Bool.noConfusion hid
  · have : db.clients.any (fun c => decide (c.username = u)) = true :=
      List.any_eq_true.mpr ⟨c, hc, h⟩
    rw [this] at hu
    exact Bool.noConfusion hu

/-- `handle_request` on a request whose header is well formed: the dispatch,
with the header fields decoded back. -/
theorem handle_request_unfold (v w now : Nat) (db : DBState) (uuid cid rest : List Nat)
    (code psz : Nat) (hcid : cid.length = 16) (hw : w < 256) (hcode : code < 2 ^ 16)
    (hpsz : psz < 2 ^ 32) :
    handle_request v db uuid now (RequestHeader.pack ⟨cid, w, code, psz⟩ ++ rest) =
      (let payload := rest.take psz
       let db1 := if code ≠ 1100 then update_last_seen db cid now else db
       let result :=
         if code = 1100 then handle_registration v db1 uuid now payload
         else if code = 1101 then handle_clients_list v db1 cid
         else if code = 1102 then handle_public_key v db1 payload
         else if code = 1103 then handle_send_message v db1 cid payload
         else if code = 1104 then handle_pull_messages v db1 cid
         else .ok (db1, create_error_response v)
       match result with
       | .ok r => some r
       | .error _ => some (db1, create_error_response v)) := by
  have hlen23 : (RequestHeader.pack ⟨cid, w, code, psz⟩).length = 23 := by
    simp [RequestHeader.pack, packBytes_length, packLE_length]
  have hne : RequestHeader.pack ⟨cid, w, code, psz⟩ ++ rest ≠ [] := by
    intro hcontra
    have := congrArg List.length hcontra
    simp [hlen23] at this
  rw [handle_request, if_neg hne, take_append_eq hlen23,
    requestHeader_unpack_pack ⟨cid, w, code, psz⟩ hcid hw hcode hpsz,
    drop_append_eq hlen23]

/-! ## Claim C5 -/

/-- C5 counterexample: a registration whose username field starts with the
non-printable ASCII byte `0x01` is NOT rejected: `decode('ascii')` accepts
every byte < 128, so the client is registered under the one-byte control
username and the success response is returned. -/
theorem C5_counterexample :
    handle_request 2 DBState.init (List.replicate 16 9) 42
        (RequestHeader.pack ⟨List.replicate 16 0, 2, 1100, 415⟩ ++
          RegistrationRequestPayload.pack ⟨[1], List.replicate 160 0⟩) =
      some ({ clients := [⟨List.replicate 16 9, [1], List.replicate 160 0, 42⟩]
              messages := []
              nextMessageId := 1
              log := [.addClient (List.replicate 16 9) [1] (List.replicate 160 0)] },
            ResponseHeader.pack ⟨2, 2100, 16⟩ ++
              RegistrationSuccessPayload.pack ⟨List.replicate 16 9⟩) := by
  decide

/-- C5 (amended): the Register handler truncates the 255-byte username field
at the first null byte and only validates that the result decodes as ASCII
(every byte < 128): a username with a byte ≥ 128 before the first null is
rejected with the Error response and nothing is registered, while usernames
made of non-printable ASCII control bytes are accepted and registered. -/
theorem C5_registration_ascii_only (v w now : Nat) (db : DBState)
    (uuid cid name pk : List Nat) (hn : name.length = 255) (hk : pk.length = 160)
    (hcid : cid.length = 16) (hw : w < 256) :
    ((splitAtNull name).all (fun x => decide (x < 128)) = false →
       handle_request v db uuid now
           (RequestHeader.pack ⟨cid, w, 1100, 415⟩ ++
             RegistrationRequestPayload.pack ⟨name, pk⟩) =
         some (db, create_error_response v)) ∧
    ((splitAtNull name).all (fun x => decide (x < 128)) = true →
     username_exists db (splitAtNull name) = false →
     client_id_exists db uuid = false →
       handle_request v db uuid now
           (RequestHeader.pack ⟨cid, w, 1100, 415⟩ ++
             RegistrationRequestPayload.pack ⟨name, pk⟩) =
         some ({ db with
                 clients := db.clients ++ [⟨uuid, splitAtNull name, pk, now⟩]
                 log := db.log ++ [.addClient uuid (splitAtNull name) pk] },
               ResponseHeader.pack ⟨v, 2100, 16⟩ ++
                 RegistrationSuccessPayload.pack ⟨uuid⟩)) := by
  have hplen : (RegistrationRequestPayload.pack ⟨name, pk⟩).length = 415 := by
    simp [RegistrationRequestPayload.pack, packBytes_length]
  have htake : (RegistrationRequestPayload.pack ⟨name, pk⟩).take 415 =
      RegistrationRequestPayload.pack ⟨name, pk⟩ := List.take_of_length_le (le_of_eq hplen)
  constructor
  · intro hbad
    rw [handle_request_unfold v w now db uuid cid _ 1100 415 hcid hw (by norm_num) (by norm_num)]
    simp only [htake, if_pos rfl, ne_eq, not_true_eq_false, if_false, ite_false, if_true]
    rw [handle_registration, registrationRequestPayload_unpack_pack ⟨name, pk⟩ hn hk]
    simp only [decodeAscii, hbad, Bool.false_eq_true, if_false]
  · intro hgood hu hid
    rw [handle_request_unfold v w now db uuid cid _ 1100 415 hcid hw (by norm_num) (by norm_num)]
    simp only [htake, if_pos rfl, ne_eq, not_true_eq_false, if_false, ite_false, if_true]
    rw [handle_registration, registrationRequestPayload_unpack_pack ⟨name, pk⟩ hn hk]
    simp only [decodeAscii, hgood, if_true]
    simp only [hu, Bool.false_eq_true, if_false]
    rw [add_client_ok db uuid (splitAtNull name) pk now hu hid]
    simp only [RegistrationSuccessPayload.pack, packBytes_length]

/-- C5 witness: the amended theorem instantiated on a username whose first
byte is `0x80` (non-ASCII), rejected with the error response. -/
theorem C5_registration_ascii_only_witness :
    handle_request 2 DBState.init (List.replicate 16 9) 42
        (RequestHeader.pack ⟨List.replicate 16 0, 2, 1100, 415⟩ ++
          RegistrationRequestPayload.pack ⟨128 :: List.replicate 254 0, List.replicate 160 0⟩) =
      some (DBState.init, create_error_response 2) :=
  (C5_registration_ascii_only 2 2 42 DBState.init (List.replicate 16 9) (List.replicate 16 0)
    (128 :: List.replicate 254 0) (List.replicate 160 0) (by decide) (by decide) (by decide)
    (by decide)).1 (by decide)

/-! ## Directory-invariant lemmas -/

/-- Touching `lastSeen` keeps every username and id, hence the invariant. -/
theorem clientInv_update_last_seen {db : DBState} (h : ClientInv db) (c : List Nat)
    (now : Nat) : ClientInv (update_last_seen db c now) := by
  rw [ClientInv, update_last_seen]
  simp only
  rw [List.pairwise_map]
  have fid : ∀ x : ClientRecord,
      ((if x.id = c then { x with lastSeen := now } else x) : ClientRecord).id = x.id := by
    intro x
    by_cases hx : x.id = c <;> simp [hx]
  have fname : ∀ x : ClientRecord,
      ((if x.id = c then { x with lastSeen := now } else x) : ClientRecord).username =
        x.username := by
    intro x
    by_cases hx : x.id = c <;> simp [hx]
  refine h.imp ?_
  intro a b hab
  exact ⟨by rw [fname a, fname b]; exact hab.1, by rw [fid a, fid b]; exact hab.2⟩

/-- A successful `add_client` preserves the invariant: the uniqueness guard
rejected every collision. -/
theorem clientInv_add_client {db db2 : DBState} {uuid u pk : List Nat} {now : Nat}
    (hok : add_client db uuid u pk now = .ok db2) (h : ClientInv db) : ClientInv db2 := by
  rw [add_client] at hok
  split at hok
  · exact absurd hok (by simp)
  · rename_i hcond
    cases hok
    rw [ClientInv]
    simp only
    rw [List.pairwise_append]
    refine ⟨h, List.pairwise_singleton _ _, ?_⟩
    intro a ha b hb
    simp only [List.mem_singleton] at hb
    subst hb
    simp only [List.any_eq_true, Bool.or_eq_true, decide_eq_true_iff, not_exists, not_or] at hcond
    have := hcond a
    simp only [ha, true_and] at this
    push_neg at this
    exact ⟨this.2, this.1⟩

/-- A successful registration preserves the invariant. -/
theorem clientInv_handle_registration {v : Nat} {db : DBState} {uuid : List Nat} {now : Nat}
    {payload : List Nat} {r : DBState × List Nat}
    (hok : handle_registration v db uuid now payload = .ok r) (h : ClientInv db) :
    ClientInv r.1 := by
  rw [handle_registration] at hok
  split at hok
  · exact absurd hok (by simp)
  · split at hok
    · exact absurd hok (by simp)
    · split at hok
      · cases hok
        exact h
      · split at hok
        · exact absurd hok (by simp)
        · rename_i hadd
          cases hok
          exact clientInv_add_client hadd h

/-- The clients-list handler never changes the clients table. -/
theorem clients_handle_clients_list {v : Nat} {db : DBState} {cid : List Nat}
    {r : DBState × List Nat} (hok : handle_clients_list v db cid = .ok r) :
    r.1.clients = db.clients := by
  rw [handle_clients_list] at hok
  cases hok
  rfl

/-- The public-key handler never changes the clients table. -/
theorem clients_handle_public_key {v : Nat} {db : DBState} {payload : List Nat}
    {r : DBState × List Nat} (hok : handle_public_key v db payload = .ok r) :
    r.1.clients = db.clients := by
  rw [handle_public_key] at hok
  split at hok
  · exact absurd hok (by simp)
  · split at hok
    · cases hok
      rfl
    · cases hok
      rfl

/-- The send-message handler never changes the clients table. -/
theorem clients_handle_send_message {v : Nat} {db : DBState} {cid payload : List Nat}
    {r : DBState × List Nat} (hok : handle_send_message v db cid payload = .ok r) :
    r.1.clients = db.clients := by
  rw [handle_send_message] at hok
  split at hok
  · cases hok
    rfl
  · split at hok
    · exact absurd hok (by simp)
    · split at hok
      · cases hok
        rfl
      · cases hok
        rfl

/-- The pull-messages handler never changes the clients table. -/
theorem clients_handle_pull_messages {v : Nat} {db : DBState} {cid : List Nat}
    {r : DBState × List Nat} (hok : handle_pull_messages v db cid = .ok r) :
    r.1.clients = db.clients := by
  rw [handle_pull_messages] at hok
  cases hok
  simp only
  split
  · rfl
  · rfl

/-- Any processed request preserves the directory uniqueness invariant. -/
theorem clientInv_handle_request {v : Nat} {db : DBState} {uuid : List Nat} {now : Nat}
    {input : List Nat} {r : DBState × List Nat}
    (hr : handle_request v db uuid now input = some r) (h : ClientInv db) : ClientInv r.1 := by
  rw [handle_request] at hr
  split at hr
  · exact absurd hr (by simp)
  · split at hr
    · cases hr
      exact h
    · rename_i header hheader
      dsimp only at hr
      generalize hdb1 : (if header.code ≠ 1100 then update_last_seen db header.client_id now
        else db) = db1 at hr
      have h1 : ClientInv db1 := by
        rw [← hdb1]
        split
        · exact clientInv_update_last_seen h _ _
        · exact h
      have hclients : ∀ db' : DBState, db'.clients = db1.clients → ClientInv db' := by
        intro db' heq
        rw [ClientInv, heq]
        exact h1
      split at hr
      · rename_i r' heq
        cases hr
        split at heq
        · exact clientInv_handle_registration heq h1
        · split at heq
          · exact hclients _ (clients_handle_clients_list heq)
          · split at heq
            · exact hclients _ (clients_handle_public_key heq)
            · split at heq
              · exact hclients _ (clients_handle_send_message heq)
              · split at heq
                · exact hclients _ (clients_handle_pull_messages heq)
                · cases heq
                  exact h1
      · cases hr
        exact h1

/-- Processing any request sequence preserves the invariant. -/
theorem clientInv_runRequests (v : Nat) (reqs : List (List Nat × Nat × List Nat)) :
    ∀ db : DBState, ClientInv db → ClientInv (runRequests v db reqs) := by
  induction reqs with
  | nil => intro db h; exact h
  | cons req rest ih =>
    intro db h
    obtain ⟨uuid, now, input⟩ := req
    rw [runRequests]
    cases hreq : handle_request v db uuid now input with
    | none => exact ih db h
    | some r => exact ih r.1 (clientInv_handle_request hreq h)

/-! ## Claim C6 -/

/-- C6: after any sequence of requests starting from the fresh store, no two
client records share a username or an id; and a registration whose
null-truncated username is already registered yields exactly the Error
response and leaves the store completely unchanged. -/
theorem C6_uniqueness :
    (∀ v : Nat, ∀ reqs : List (List Nat × Nat × List Nat),
       ClientInv (runRequests v DBState.init reqs)) ∧
    (∀ v w now : Nat, ∀ db : DBState, ∀ uuid cid name pk : List Nat,
       name.length = 255 → pk.length = 160 → cid.length = 16 → w < 256 →
       (splitAtNull name).all (fun x => decide (x < 128)) = true →
       username_exists db (splitAtNull name) = true →
       handle_request v db uuid now
           (RequestHeader.pack ⟨cid, w, 1100, 415⟩ ++
             RegistrationRequestPayload.pack ⟨name, pk⟩) =
         some (db, create_error_response v)) := by
  constructor
  · intro v reqs
    exact clientInv_runRequests v reqs DBState.init List.Pairwise.nil
  · intro v w now db uuid cid name pk hn hk hcid hw hgood hdup
    have hplen : (RegistrationRequestPayload.pack ⟨name, pk⟩).length = 415 := by
      simp [RegistrationRequestPayload.pack, packBytes_length]
    have htake : (RegistrationRequestPayload.pack ⟨name, pk⟩).take 415 =
        RegistrationRequestPayload.pack ⟨name, pk⟩ := List.take_of_length_le (le_of_eq hplen)
    rw [handle_request_unfold v w now db uuid cid _ 1100 415 hcid hw (by norm_num) (by norm_num)]
    simp only [htake, if_pos rfl, ne_eq, not_true_eq_false, if_false, ite_false, if_true]
    rw [handle_registration, registrationRequestPayload_unpack_pack ⟨name, pk⟩ hn hk]
    simp only [decodeAscii, hgood, if_true]
    simp only [hdup, if_true]

/-- C6 witness: a duplicate registration of "a" against a store already
holding "a" is rejected with the error response and nothing changes. -/
theorem C6_uniqueness_witness :
    handle_request 2 ⟨[⟨List.replicate 16 1, [97], List.replicate 160 0, 0⟩], [], 1, []⟩
        (List.replicate 16 9) 5
        (RequestHeader.pack ⟨List.replicate 16 0, 2, 1100, 415⟩ ++
          RegistrationRequestPayload.pack ⟨97 :: List.replicate 254 0, List.replicate 160 0⟩) =
      some (⟨[⟨List.replicate 16 1, [97], List.replicate 160 0, 0⟩], [], 1, []⟩,
            create_error_response 2) :=
  C6_uniqueness.2 2 2 5 ⟨[⟨List.replicate 16 1, [97], List.replicate 160 0, 0⟩], [], 1, []⟩
    (List.replicate 16 9) (List.replicate 16 0) (97 :: List.replicate 254 0)
    (List.replicate 160 0) (by decide) (by decide) (by decide) (by decide) (by decide)
    (by decide)

/-! ## Send-message lemmas -/

/-- Touching `lastSeen` does not change which ids exist. -/
theorem client_id_exists_update_last_seen (db : DBState) (c x : List Nat) (now : Nat) :
    client_id_exists (update_last_seen db c now) x = client_id_exists db x := by
  rw [client_id_exists, client_id_exists, update_last_seen]
  simp only
  rw [List.any_map]
  congr 1
  funext y
  by_cases hy : y.id = c <;> simp [hy, Function.comp]

/-- Mapping the conditional `lastSeen` update over rows none of which match
the id is the identity. -/
theorem map_touch_of_not_mem (l : List ClientRecord) (c : List Nat) (now : Nat)
    (hall : ∀ y ∈ l, ¬ y.id = c) :
    l.map (fun x => if x.id = c then { x with lastSeen := now } else x) = l := by
  induction l with
  | nil => rfl
  | cons y ys ih =>
    rw [List.map_cons, if_neg (hall y (by simp)),
      ih (fun z hz => hall z (List.mem_cons_of_mem _ hz))]

/-- Touching an id that is not in the directory leaves the rows unchanged
(the UPDATE matches nothing). -/
theorem update_last_seen_unknown {db : DBState} {c : List Nat}
    (h : client_id_exists db c = false) (now : Nat) :
    (update_last_seen db c now).clients = db.clients := by
  rw [update_last_seen]
  simp only
  rw [client_id_exists] at h
  refine map_touch_of_not_mem db.clients c now ?_
  intro y hy hcontra
  have : db.clients.any (fun d => decide (d.id = c)) = true :=
    List.any_eq_true.mpr ⟨y, hy, by simp [hcontra]⟩
  rw [this] at h
  exact Bool.noConfusion h

/-- Dispatching a request with code 1103: touch the sender, then the
send-message handler. -/
theorem handle_request_send (v w now : Nat) (db : DBState) (uuid sender rest : List Nat)
    (psz : Nat) (hs : sender.length = 16) (hw : w < 256) (hpsz : psz < 2 ^ 32)
    (hrest : rest.length = psz) :
    handle_request v db uuid now (RequestHeader.pack ⟨sender, w, 1103, psz⟩ ++ rest) =
      (match handle_send_message v (update_last_seen db sender now) sender rest with
       | .ok r => some r
       | .error _ => some (update_last_seen db sender now, create_error_response v)) := by
  rw [handle_request_unfold v w now db uuid sender _ 1103 psz hs hw (by norm_num) hpsz]
  simp only [List.take_of_length_le (le_of_eq hrest)]
  rw [if_pos (show (1103 : Nat) ≠ 1100 from by norm_num)]
  rw [if_neg (show ¬(1103 : Nat) = 1100 from by norm_num)]
  rw [if_neg (show ¬(1103 : Nat) = 1101 from by norm_num)]
  rw [if_neg (show ¬(1103 : Nat) = 1102 from by norm_num)]
  simp

/-- The send handler on a payload made of a well-formed message header and
content, when the recipient is unknown: error response, store untouched. -/
theorem handle_send_message_unknown (v : Nat) (db : DBState)
    (sender recip content : List Nat) (mtype csize : Nat) (hr2 : recip.length = 16)
    (hmt : mtype < 256) (hcs : csize < 2 ^ 32)
    (hnr : client_id_exists db recip = false) :
    handle_send_message v db sender
        (SendMessageRequestPayloadHeader.pack ⟨recip, mtype, csize⟩ ++ content) =
      .ok (db, create_error_response v) := by
  have hsm : (SendMessageRequestPayloadHeader.pack ⟨recip, mtype, csize⟩).length = 21 := by
    simp [SendMessageRequestPayloadHeader.pack, packBytes_length, packLE_length]
  rw [handle_send_message, if_neg (by simp [hsm])]
  rw [take_append_eq hsm,
    sendMessageRequestPayloadHeader_unpack_pack ⟨recip, mtype, csize⟩ hr2 hmt hcs]
  simp only
  rw [if_neg (by simp [hnr])]

/-- The send handler when the recipient exists: the message is stored with the
(unchecked) sender id from the request header and `MessageSent` is returned
with the recipient id and the new AUTOINCREMENT message id. -/
theorem handle_send_message_known (v : Nat) (db : DBState)
    (sender recip content : List Nat) (mtype csize : Nat) (hr2 : recip.length = 16)
    (hmt : mtype < 256) (hcs : csize < 2 ^ 32)
    (hex : client_id_exists db recip = true) :
    handle_send_message v db sender
        (SendMessageRequestPayloadHeader.pack ⟨recip, mtype, csize⟩ ++ content) =
      .ok ({ db with
             messages := db.messages ++ [⟨db.nextMessageId, recip, sender, mtype, content⟩]
             nextMessageId := db.nextMessageId + 1
             log := db.log ++ [.addMessage recip sender mtype content] },
           ResponseHeader.pack ⟨v, 2103, 20⟩ ++
             MessageSentResponsePayload.pack ⟨recip, db.nextMessageId⟩) := by
  have hsm : (SendMessageRequestPayloadHeader.pack ⟨recip, mtype, csize⟩).length = 21 := by
    simp [SendMessageRequestPayloadHeader.pack, packBytes_length, packLE_length]
  rw [handle_send_message, if_neg (by simp [hsm])]
  rw [take_append_eq hsm,
    sendMessageRequestPayloadHeader_unpack_pack ⟨recip, mtype, csize⟩ hr2 hmt hcs]
  simp only
  rw [if_pos hex, drop_append_eq hsm]
  simp only [add_message, MessageSentResponsePayload.pack, packBytes_length, packLE_length,
    List.length_append]

/-! ## Claim C7 -/

/-- C7: a SendMessage request addressed to an unregistered recipient id yields
the Error response, and the mailbox is untouched: the stored messages and the
AUTOINCREMENT message-id counter are exactly what they were (only the
best-effort `lastSeen` touch of the sender happened). -/
theorem C7_unknown_recipient (v w now mtype csize : Nat) (db : DBState)
    (uuid sender recip content : List Nat)
    (hs : sender.length = 16) (hr2 : recip.length = 16) (hmt : mtype < 256)
    (hcs : csize < 2 ^ 32) (hw : w < 256) (hlen : 21 + content.length < 2 ^ 32)
    (hnr : client_id_exists db recip = false) :
    handle_request v db uuid now
        (RequestHeader.pack ⟨sender, w, 1103, 21 + content.length⟩ ++
          (SendMessageRequestPayloadHeader.pack ⟨recip, mtype, csize⟩ ++ content)) =
      some (update_last_seen db sender now, create_error_response v) ∧
    (update_last_seen db sender now).messages = db.messages ∧
    (update_last_seen db sender now).nextMessageId = db.nextMessageId := by
  have hsm : (SendMessageRequestPayloadHeader.pack ⟨recip, mtype, csize⟩).length = 21 := by
    simp [SendMessageRequestPayloadHeader.pack, packBytes_length, packLE_length]
  have hrest : (SendMessageRequestPayloadHeader.pack ⟨recip, mtype, csize⟩ ++ content).length =
      21 + content.length := by simp [hsm]
  refine ⟨?_, rfl, rfl⟩
  rw [handle_request_send v w now db uuid sender _ (21 + content.length) hs hw hlen hrest]
  rw [handle_send_message_unknown v _ sender recip content mtype csize hr2 hmt hcs
    (by rw [client_id_exists_update_last_seen]; exact hnr)]

/-- C7 witness: sending to an unregistered recipient on the empty store. -/
theorem C7_unknown_recipient_witness :
    handle_request 2 DBState.init (List.replicate 16 9) 7
        (RequestHeader.pack ⟨List.replicate 16 3, 2, 1103, 21 + 2⟩ ++
          (SendMessageRequestPayloadHeader.pack ⟨List.replicate 16 4, 3, 2⟩ ++ [104, 105])) =
      some (update_last_seen DBState.init (List.replicate 16 3) 7, create_error_response 2) :=
  (C7_unknown_recipient 2 2 7 3 2 DBState.init (List.replicate 16 9) (List.replicate 16 3)
    (List.replicate 16 4) [104, 105] (by decide) (by decide) (by decide) (by decide)
    (by decide) (by decide) (by decide)).1

/-! ## Claim C9 -/

/-- C9: the sender's identity is never validated: when the recipient exists,
a SendMessage whose header carries an unregistered sender id still stores the
message — with that unregistered id as `FromClient` — and answers MessageSent
with the recipient id and the fresh message id; the sender-side `lastSeen`
touch matches no row, so the directory rows are also unchanged. -/
theorem C9_sender_not_validated (v w now mtype csize : Nat) (db : DBState)
    (uuid sender recip content : List Nat)
    (hs : sender.length = 16) (hr2 : recip.length = 16) (hmt : mtype < 256)
    (hcs : csize < 2 ^ 32) (hw : w < 256) (hlen : 21 + content.length < 2 ^ 32)
    (hsender : client_id_exists db sender = false)
    (hrec : client_id_exists db recip = true) :
    handle_request v db uuid now
        (RequestHeader.pack ⟨sender, w, 1103, 21 + content.length⟩ ++
          (SendMessageRequestPayloadHeader.pack ⟨recip, mtype, csize⟩ ++ content)) =
      some ({ update_last_seen db sender now with
              messages := db.messages ++ [⟨db.nextMessageId, recip, sender, mtype, content⟩]
              nextMessageId := db.nextMessageId + 1
              log := (update_last_seen db sender now).log ++
                       [.addMessage recip sender mtype content] },
            ResponseHeader.pack ⟨v, 2103, 20⟩ ++
              MessageSentResponsePayload.pack ⟨recip, db.nextMessageId⟩) ∧
    (update_last_seen db sender now).clients = db.clients := by
  have hsm : (SendMessageRequestPayloadHeader.pack ⟨recip, mtype, csize⟩).length = 21 := by
    simp [SendMessageRequestPayloadHeader.pack, packBytes_length, packLE_length]
  have hrest : (SendMessageRequestPayloadHeader.pack ⟨recip, mtype, csize⟩ ++ content).length =
      21 + content.length := by simp [hsm]
  refine ⟨?_, update_last_seen_unknown hsender now⟩
  rw [handle_request_send v w now db uuid sender _ (21 + content.length) hs hw hlen hrest]
  rw [handle_send_message_known v _ sender recip content mtype csize hr2 hmt hcs
    (by rw [client_id_exists_update_last_seen]; exact hrec)]
  rfl

/-- C9 witness: a store holding only the recipient accepts a message from an
unregistered sender. -/
theorem C9_sender_not_validated_witness :
    handle_request 2 ⟨[⟨List.replicate 16 4, [97], List.replicate 160 0, 0⟩], [], 1, []⟩
        (List.replicate 16 9) 7
        (RequestHeader.pack ⟨List.replicate 16 3, 2, 1103, 21 + 2⟩ ++
          (SendMessageRequestPayloadHeader.pack ⟨List.replicate 16 4, 3, 2⟩ ++ [104, 105])) =
      some ({ update_last_seen
                ⟨[⟨List.replicate 16 4, [97], List.replicate 160 0, 0⟩], [], 1, []⟩
                (List.replicate 16 3) 7 with
              messages := [] ++ [⟨1, List.replicate 16 4, List.replicate 16 3, 3, [104, 105]⟩]
              nextMessageId := 1 + 1
              log := (update_last_seen
                       ⟨[⟨List.replicate 16 4, [97], List.replicate 160 0, 0⟩], [], 1, []⟩
                       (List.replicate 16 3) 7).log ++
                     [.addMessage (List.replicate 16 4) (List.replicate 16 3) 3 [104, 105]] },
            ResponseHeader.pack ⟨2, 2103, 20⟩ ++
              MessageSentResponsePayload.pack ⟨List.replicate 16 4, 1⟩) :=
  (C9_sender_not_validated 2 2 7 3 2
    ⟨[⟨List.replicate 16 4, [97], List.replicate 160 0, 0⟩], [], 1, []⟩
    (List.replicate 16 9) (List.replicate 16 3) (List.replicate 16 4) [104, 105]
    (by decide) (by decide) (by decide) (by decide) (by decide) (by decide) (by decide)
    (by decide)).1

/-! ## Call-log lemmas: which data-manager operations a dispatch performs -/

/-- A registration appends at most an `addClient` record to the call log —
never a `lastSeen` update. -/
theorem log_handle_registration {v : Nat} {db : DBState} {uuid : List Nat} {now : Nat}
    {payload : List Nat} {r : DBState × List Nat}
    (hok : handle_registration v db uuid now payload = .ok r) :
    ∃ t, r.1.log = db.log ++ t ∧ ∀ op ∈ t, ∀ x, op ≠ DMOp.updateLastSeen x := by
  rw [handle_registration] at hok
  split at hok
  · exact absurd hok (by simp)
  · split at hok
    · exact absurd hok (by simp)
    · split at hok
      · cases hok
        exact ⟨[], by simp, by simp⟩
      · split at hok
        · exact absurd hok (by simp)
        · rename_i username hadd
          cases hok
          rw [add_client] at hadd
          split at hadd
          · exact absurd hadd (by simp)
          · cases hadd
            refine ⟨[.addClient uuid _ _], rfl, ?_⟩
            intro op hop x
            simp only [List.mem_singleton] at hop
            subst hop
            exact fun hcontra => DMOp.noConfusion hcontra

/-- The clients-list handler logs nothing. -/
theorem log_handle_clients_list {v : Nat} {db : DBState} {cid : List Nat}
    {r : DBState × List Nat} (hok : handle_clients_list v db cid = .ok r) :
    r.1.log = db.log := by
  rw [handle_clients_list] at hok
  cases hok
  rfl

/-- The public-key handler logs nothing. -/
theorem log_handle_public_key {v : Nat} {db : DBState} {payload : List Nat}
    {r : DBState × List Nat} (hok : handle_public_key v db payload = .ok r) :
    r.1.log = db.log := by
  rw [handle_public_key] at hok
  split at hok
  · exact absurd hok (by simp)
  · split at hok
    · cases hok
      rfl
    · cases hok
      rfl

/-- The send handler appends at most an `addMessage` record to the call log. -/
theorem log_handle_send_message {v : Nat} {db : DBState} {cid payload : List Nat}
    {r : DBState × List Nat} (hok : handle_send_message v db cid payload = .ok r) :
    ∃ t, r.1.log = db.log ++ t ∧ ∀ op ∈ t, ∀ x, op ≠ DMOp.updateLastSeen x := by
  rw [handle_send_message] at hok
  split at hok
  · cases hok
    exact ⟨[], by simp, by simp⟩
  · split at hok
    · exact absurd hok (by simp)
    · split at hok
      · cases hok
        refine ⟨[.addMessage _ _ _ _], rfl, ?_⟩
        intro op hop x
        simp only [List.mem_singleton] at hop
        subst hop
        exact fun hcontra => DMOp.noConfusion hcontra
      · cases hok
        exact ⟨[], by simp, by simp⟩

/-- The pull handler appends at most a `deleteMessages` record to the log. -/
theorem log_handle_pull_messages {v : Nat} {db : DBState} {cid : List Nat}
    {r : DBState × List Nat} (hok : handle_pull_messages v db cid = .ok r) :
    ∃ t, r.1.log = db.log ++ t ∧ ∀ op ∈ t, ∀ x, op ≠ DMOp.updateLastSeen x := by
  rw [handle_pull_messages] at hok
  cases hok
  simp only
  split
  · refine ⟨[.deleteMessages _], rfl, ?_⟩
    intro op hop x
    simp only [List.mem_singleton] at hop
    subst hop
    exact fun hcontra => DMOp.noConfusion hcontra
  · exact ⟨[], by simp, by simp⟩

/-- Whatever the request code, dispatching appends only non-touch operations
to the log, and always yields a response. -/
theorem dispatch_log (v : Nat) (db1 : DBState) (uuid cid payload : List Nat)
    (now code : Nat) :
    ∃ db' out,
      (match
        (if code = 1100 then handle_registration v db1 uuid now payload
         else if code = 1101 then handle_clients_list v db1 cid
         else if code = 1102 then handle_public_key v db1 payload
         else if code = 1103 then handle_send_message v db1 cid payload
         else if code = 1104 then handle_pull_messages v db1 cid
         else .ok (db1, create_error_response v)) with
       | .ok r => some r
       | .error _ => some (db1, create_error_response v)) = some (db', out) ∧
      ∃ t, db'.log = db1.log ++ t ∧ ∀ op ∈ t, ∀ x, op ≠ DMOp.updateLastSeen x := by
  set result :=
    (if code = 1100 then handle_registration v db1 uuid now payload
     else if code = 1101 then handle_clients_list v db1 cid
     else if code = 1102 then handle_public_key v db1 payload
     else if code = 1103 then handle_send_message v db1 cid payload
     else if code = 1104 then handle_pull_messages v db1 cid
     else .ok (db1, create_error_response v)) with hresult
  cases hres : result with
  | error e => exact ⟨db1, create_error_response v, rfl, [], by simp, by simp⟩
  | ok r =>
    refine ⟨r.1, r.2, rfl, ?_⟩
    rw [hresult] at hres
    split at hres
    · exact log_handle_registration hres
    · split at hres
      · exact ⟨[], by rw [log_handle_clients_list hres]; simp, by simp⟩
      · split at hres
        · exact ⟨[], by rw [log_handle_public_key hres]; simp, by simp⟩
        · split at hres
          · exact log_handle_send_message hres
          · split at hres
            · exact log_handle_pull_messages hres
            · cases hres
              exact ⟨[], by simp, by simp⟩

/-! ## Claim C8 -/

/-- C8: for every decodable request header whose code is not Register (1100)
— unknown codes and invalid payloads included — the dispatcher performs the
`lastSeen` touch on the header's client id first: the call log grows by
`updateLastSeen cid` followed only by non-touch operations.  For a Register
request no `lastSeen` update is ever performed. -/
theorem C8_touch_before_dispatch :
    (∀ v w now code psz : Nat, ∀ db : DBState, ∀ uuid cid rest : List Nat,
       cid.length = 16 → w < 256 → code < 2 ^ 16 → psz < 2 ^ 32 → code ≠ 1100 →
       ∃ db' out t,
         handle_request v db uuid now (RequestHeader.pack ⟨cid, w, code, psz⟩ ++ rest) =
           some (db', out) ∧
         db'.log = db.log ++ (DMOp.updateLastSeen cid :: t) ∧
         ∀ op ∈ t, ∀ x, op ≠ DMOp.updateLastSeen x) ∧
    (∀ v w now psz : Nat, ∀ db : DBState, ∀ uuid cid rest : List Nat,
       cid.length = 16 → w < 256 → psz < 2 ^ 32 →
       ∃ db' out t,
         handle_request v db uuid now (RequestHeader.pack ⟨cid, w, 1100, psz⟩ ++ rest) =
           some (db', out) ∧
         db'.log = db.log ++ t ∧ ∀ op ∈ t, ∀ x, op ≠ DMOp.updateLastSeen x) := by
  constructor
  · intro v w now code psz db uuid cid rest hcid hw hcode hpsz hne
    rw [handle_request_unfold v w now db uuid cid rest code psz hcid hw hcode hpsz]
    rw [if_pos hne]
    obtain ⟨db', out, heq, t, hlog, ht⟩ :=
      dispatch_log v (update_last_seen db cid now) uuid cid (rest.take psz) now code
    refine ⟨db', out, t, heq, ?_, ht⟩
    rw [hlog, update_last_seen]
    simp
  · intro v w now psz db uuid cid rest hcid hw hpsz
    rw [handle_request_unfold v w now db uuid cid rest 1100 psz hcid hw (by norm_num) hpsz]
    rw [if_neg (show ¬(1100 : Nat) ≠ 1100 from by norm_num)]
    obtain ⟨db', out, heq, t, hlog, ht⟩ := dispatch_log v db uuid cid (rest.take psz) now 1100
    exact ⟨db', out, t, heq, hlog, ht⟩

/-- C8 witness: an unknown request code (9999) still touches the header's
client id before the error response. -/
theorem C8_touch_before_dispatch_witness :
    ∃ db' out t,
      handle_request 2 DBState.init (List.replicate 16 9) 5
          (RequestHeader.pack ⟨List.replicate 16 3, 2, 9999, 0⟩ ++ []) =
        some (db', out) ∧
      db'.log = DBState.init.log ++ (DMOp.updateLastSeen (List.replicate 16 3) :: t) ∧
      ∀ op ∈ t, ∀ x, op ≠ DMOp.updateLastSeen x :=
  C8_touch_before_dispatch.1 2 2 5 9999 0 DBState.init (List.replicate 16 9)
    (List.replicate 16 3) [] (by decide) (by decide) (by decide) (by decide) (by decide)

/-! ## Response-shape lemmas -/

/-- The generic error response is well formed: code 9000, empty payload. -/
theorem goodResponse_error (v : Nat) : GoodResponse v (create_error_response v) := by
  refine ⟨9000, [], ?_, by simp, fun _ => rfl⟩
  simp [create_error_response]

theorem goodResponse_handle_registration {v : Nat} {db : DBState} {uuid : List Nat}
    {now : Nat} {payload : List Nat} {r : DBState × List Nat}
    (hok : handle_registration v db uuid now payload = .ok r) : GoodResponse v r.2 := by
  rw [handle_registration] at hok
  split at hok
  · exact absurd hok (by simp)
  · split at hok
    · exact absurd hok (by simp)
    · split at hok
      · cases hok
        exact goodResponse_error v
      · split at hok
        · exact absurd hok (by simp)
        · cases hok
          exact ⟨2100, _, rfl, by simp, by simp⟩

theorem goodResponse_handle_clients_list {v : Nat} {db : DBState} {cid : List Nat}
    {r : DBState × List Nat} (hok : handle_clients_list v db cid = .ok r) :
    GoodResponse v r.2 := by
  rw [handle_clients_list] at hok
  cases hok
  exact ⟨2101, _, rfl, by simp, by simp⟩

theorem goodResponse_handle_public_key {v : Nat} {db : DBState} {payload : List Nat}
    {r : DBState × List Nat} (hok : handle_public_key v db payload = .ok r) :
    GoodResponse v r.2 := by
  rw [handle_public_key] at hok
  split at hok
  · exact absurd hok (by simp)
  · split at hok
    · cases hok
      exact goodResponse_error v
    · cases hok
      exact ⟨2102, _, rfl, by simp, by simp⟩

theorem goodResponse_handle_send_message {v : Nat} {db : DBState} {cid payload : List Nat}
    {r : DBState × List Nat} (hok : handle_send_message v db cid payload = .ok r) :
    GoodResponse v r.2 := by
  rw [handle_send_message] at hok
  split at hok
  · cases hok
    exact goodResponse_error v
  · split at hok
    · exact absurd hok (by simp)
    · split at hok
      · cases hok
        exact ⟨2103, _, rfl, by simp, by simp⟩
      · cases hok
        exact goodResponse_error v

theorem goodResponse_handle_pull_messages {v : Nat} {db : DBState} {cid : List Nat}
    {r : DBState × List Nat} (hok : handle_pull_messages v db cid = .ok r) :
    GoodResponse v r.2 := by
  rw [handle_pull_messages] at hok
  cases hok
  exact ⟨2104, _, rfl, by simp, by simp⟩

/-- Whatever the code and payload, dispatching produces a response and it is
well formed. -/
theorem dispatch_response (v : Nat) (db1 : DBState) (uuid cid payload : List Nat)
    (now code : Nat) :
    ∃ db' out,
      (match
        (if code = 1100 then handle_registration v db1 uuid now payload
         else if code = 1101 then handle_clients_list v db1 cid
         else if code = 1102 then handle_public_key v db1 payload
         else if code = 1103 then handle_send_message v db1 cid payload
         else if code = 1104 then handle_pull_messages v db1 cid
         else .ok (db1, create_error_response v)) with
       | .ok r => some r
       | .error _ => some (db1, create_error_response v)) = some (db', out) ∧
      GoodResponse v out := by
  set result :=
    (if code = 1100 then handle_registration v db1 uuid now payload
     else if code = 1101 then handle_clients_list v db1 cid
     else if code = 1102 then handle_public_key v db1 payload
     else if code = 1103 then handle_send_message v db1 cid payload
     else if code = 1104 then handle_pull_messages v db1 cid
     else .ok (db1, create_error_response v)) with hresult
  cases hres : result with
  | error e => exact ⟨db1, create_error_response v, rfl, goodResponse_error v⟩
  | ok r =>
    refine ⟨r.1, r.2, rfl, ?_⟩
    rw [hresult] at hres
    split at hres
    · exact goodResponse_handle_registration hres
    · split at hres
      · exact goodResponse_handle_clients_list hres
      · split at hres
        · exact goodResponse_handle_public_key hres
        · split at hres
          · exact goodResponse_handle_send_message hres
          · split at hres
            · exact goodResponse_handle_pull_messages hres
            · cases hres
              exact goodResponse_error v

/-! ## Claim C4 -/

/-- C4: for every nonempty input, the dispatcher always produces exactly one
response (exceptions never propagate); that response always begins with a
well-formed response header carrying the server version and one of the six
protocol codes; and whenever the code is the generic Error 9000 — malformed
frame, duplicate username, unknown recipient, unknown request code, handler
failure — the payload length is zero and no payload bytes follow. -/
theorem C4_error_policy (v now : Nat) (db : DBState) (uuid input : List Nat)
    (hne : input ≠ []) :
    ∃ db' out, handle_request v db uuid now input = some (db', out) ∧ GoodResponse v out := by
  rw [handle_request, if_neg hne]
  cases hh : RequestHeader.unpack (input.take 23) with
  | none => exact ⟨db, create_error_response v, rfl, goodResponse_error v⟩
  | some header =>
    obtain ⟨db', out, heq, hgood⟩ := dispatch_response v
      (if header.code ≠ 1100 then update_last_seen db header.client_id now else db) uuid
      header.client_id ((input.drop 23).take header.payload_size) now header.code
    exact ⟨db', out, heq, hgood⟩

/-- C4 witness: a one-byte (malformed) request still gets a well-formed
response. -/
theorem C4_error_policy_witness :
    ∃ db' out, handle_request 2 DBState.init (List.replicate 16 9) 5 [0] = some (db', out) ∧
      GoodResponse 2 out :=
  C4_error_policy 2 5 DBState.init (List.replicate 16 9) [0] (by decide)

/-! ## Pull-stream lemmas -/

/-- A concatenation of pulled-message records whose size fields equal their
content lengths decodes back to exactly those records. -/
theorem unpack_stream_flatten (msgs : List StoredMessage)
    (hwf : ∀ m ∈ msgs, m.fromClient.length = 16 ∧ m.id < 2 ^ 32 ∧ m.type < 256 ∧
             m.content.length < 2 ^ 32) :
    PulledMessage.unpack_stream
        ((msgs.map (fun m => PulledMessage.pack (toPulledRecord m))).flatten) =
      some (msgs.map toPulledRecord) := by
  induction msgs with
  | nil => simpa using unpack_stream_nil
  | cons m ms ih =>
    obtain ⟨h1, h2, h3, h4⟩ := hwf m (by simp)
    have hih := ih (fun x hx => hwf x (by simp [hx]))
    rw [List.map_cons, List.flatten_cons]
    have hshape : PulledMessage.pack (toPulledRecord m) ++
        (ms.map (fun x => PulledMessage.pack (toPulledRecord x))).flatten =
        (packBytes 16 m.fromClient ++
          (packLE 4 m.id ++ (packLE 1 m.type ++ packLE 4 m.content.length))) ++
          (m.content ++ (ms.map (fun x => PulledMessage.pack (toPulledRecord x))).flatten) := by
      simp [PulledMessage.pack, toPulledRecord, List.append_assoc]
    rw [hshape, unpack_stream_step _ _ _ _ _ h1 h2 h3 h4]
    rw [take_append_eq rfl, drop_append_eq rfl, hih]
    rfl

/-! ## Claim C10 -/

/-- C10: every PullMessages response payload is produced by concatenating one
record per drained message whose size field is recomputed as the stored
content's length, so the payload is a well-formed stream: decoding it
succeeds (no trailing partial record) and returns exactly those records, each
with `msg_size = content.length`. -/
theorem C10_pull_payload_wellformed (v : Nat) (db : DBState) (R : List Nat)
    (hwf : ∀ m ∈ db.messages, m.fromClient.length = 16 ∧ m.id < 2 ^ 32 ∧ m.type < 256 ∧
             m.content.length < 2 ^ 32) :
    ∃ db',
      handle_pull_messages v db R = .ok (db',
        ResponseHeader.pack ⟨v, 2104,
          (((get_messages_for_client db R).map
              (fun m => PulledMessage.pack (toPulledRecord m))).flatten).length⟩ ++
          ((get_messages_for_client db R).map
              (fun m => PulledMessage.pack (toPulledRecord m))).flatten) ∧
      PulledMessage.unpack_stream
          (((get_messages_for_client db R).map
              (fun m => PulledMessage.pack (toPulledRecord m))).flatten) =
        some ((get_messages_for_client db R).map toPulledRecord) := by
  refine ⟨_, rfl, ?_⟩
  refine unpack_stream_flatten _ ?_
  intro m hm
  exact hwf m (List.mem_of_mem_filter hm)

/-- C10 witness: a store with one queued two-byte message for the recipient. -/
theorem C10_pull_payload_wellformed_witness :
    ∃ db',
      handle_pull_messages 2
          ⟨[], [⟨1, List.replicate 16 4, List.replicate 16 3, 3, [104, 105]⟩], 2, []⟩
          (List.replicate 16 4) = .ok (db',
        ResponseHeader.pack ⟨2, 2104,
          (((get_messages_for_client
                ⟨[], [⟨1, List.replicate 16 4, List.replicate 16 3, 3, [104, 105]⟩], 2, []⟩
                (List.replicate 16 4)).map
              (fun m => PulledMessage.pack (toPulledRecord m))).flatten).length⟩ ++
          ((get_messages_for_client
                ⟨[], [⟨1, List.replicate 16 4, List.replicate 16 3, 3, [104, 105]⟩], 2, []⟩
                (List.replicate 16 4)).map
              (fun m => PulledMessage.pack (toPulledRecord m))).flatten) ∧
      PulledMessage.unpack_stream
          (((get_messages_for_client
                ⟨[], [⟨1, List.replicate 16 4, List.replicate 16 3, 3, [104, 105]⟩], 2, []⟩
                (List.replicate 16 4)).map
              (fun m => PulledMessage.pack (toPulledRecord m))).flatten) =
        some ((get_messages_for_client
                ⟨[], [⟨1, List.replicate 16 4, List.replicate 16 3, 3, [104, 105]⟩], 2, []⟩
                (List.replicate 16 4)).map toPulledRecord) :=
  C10_pull_payload_wellformed 2
    ⟨[], [⟨1, List.replicate 16 4, List.replicate 16 3, 3, [104, 105]⟩], 2, []⟩
    (List.replicate 16 4) (by decide)

/-! ## Mailbox-draining lemmas -/

/-- Dispatching a request with code 1104: touch the requester, then the pull
handler. -/
theorem handle_request_pull (v w now : Nat) (db : DBState) (uuid R rest : List Nat)
    (psz : Nat) (hR : R.length = 16) (hw : w < 256) (hpsz : psz < 2 ^ 32)
    (hrest : rest.length = psz) :
    handle_request v db uuid now (RequestHeader.pack ⟨R, w, 1104, psz⟩ ++ rest) =
      (match handle_pull_messages v (update_last_seen db R now) R with
       | .ok r => some r
       | .error _ => some (update_last_seen db R now, create_error_response v)) := by
  rw [handle_request_unfold v w now db uuid R _ 1104 psz hR hw (by norm_num) hpsz]
  simp only [List.take_of_length_le (le_of_eq hrest)]
  rw [if_pos (show (1104 : Nat) ≠ 1100 from by norm_num)]
  rw [if_neg (show ¬(1104 : Nat) = 1100 from by norm_num)]
  rw [if_neg (show ¬(1104 : Nat) = 1101 from by norm_num)]
  rw [if_neg (show ¬(1104 : Nat) = 1102 from by norm_num)]
  rw [if_neg (show ¬(1104 : Nat) = 1103 from by norm_num)]
  simp

/-- The pull handler, written out: conditional bulk delete of the drained ids
and the response built from the drained messages. -/
theorem handle_pull_messages_eq (v : Nat) (db : DBState) (R : List Nat) :
    handle_pull_messages v db R = .ok
      (if (get_messages_for_client db R).map (fun m => m.id) ≠ [] then
         delete_messages db ((get_messages_for_client db R).map (fun m => m.id))
       else db,
       ResponseHeader.pack ⟨v, 2104,
         (((get_messages_for_client db R).map
             (fun m => PulledMessage.pack (toPulledRecord m))).flatten).length⟩ ++
         ((get_messages_for_client db R).map
             (fun m => PulledMessage.pack (toPulledRecord m))).flatten) := rfl

/-- Enqueueing one message appends exactly one row to the recipient's
mailbox view, stamped with the current AUTOINCREMENT id. -/
theorem get_messages_add_message (db : DBState) (R f : List Nat) (t : Nat) (c : List Nat) :
    get_messages_for_client (add_message db R f t c).1 R =
      get_messages_for_client db R ++ [⟨db.nextMessageId, R, f, t, c⟩] := by
  rw [get_messages_for_client, add_message, get_messages_for_client]
  simp only
  rw [List.filter_append]
  simp [List.filter]

/-- Enqueueing a batch for `R` appends exactly the corresponding rows, with
consecutive ids starting at the current AUTOINCREMENT value. -/
theorem get_messages_enqueueAll (R : List Nat) (ts : List (List Nat × Nat × List Nat)) :
    ∀ db : DBState, get_messages_for_client (enqueueAll db R ts) R =
      get_messages_for_client db R ++ mkMsgs db.nextMessageId R ts := by
  induction ts with
  | nil =>
    intro db
    simp [enqueueAll, mkMsgs]
  | cons hd tl ih =>
    intro db
    obtain ⟨f, t, c⟩ := hd
    show get_messages_for_client (enqueueAll (add_message db R f t c).1 R tl) R = _
    rw [ih (add_message db R f t c).1, get_messages_add_message]
    rw [show (add_message db R f t c).1.nextMessageId = db.nextMessageId + 1 from rfl]
    rw [mkMsgs]
    simp [List.append_assoc]

/-- After deleting exactly the drained ids, the recipient's mailbox view is
empty. -/
theorem get_messages_after_delete (db : DBState) (R : List Nat) :
    get_messages_for_client
        (delete_messages db ((get_messages_for_client db R).map (fun m => m.id))) R = [] := by
  rw [delete_messages, get_messages_for_client]
  simp only
  rw [List.filter_filter, List.filter_eq_nil_iff]
  intro m hm
  by_cases hR : m.toClient = R
  · have hmem : m ∈ get_messages_for_client db R := by
      rw [get_messages_for_client]
      exact List.mem_filter.mpr ⟨hm, by simp [hR]⟩
    have hid : m.id ∈ (get_messages_for_client db R).map (fun m => m.id) :=
      List.mem_map.mpr ⟨m, hmem, rfl⟩
    simp [hid]
  · simp [hR]

/-! ## Claim C2 -/

/-- C2: starting from a store with no pending messages for `R`, after `N`
enqueues for `R` a PullMessages request from `R` answers with exactly those
`N` messages, as pulled-message records in enqueue order (ids consecutive
from the AUTOINCREMENT counter); afterwards `R`'s mailbox view is empty, and
a second PullMessages request answers with an empty payload while the store
keeps its messages and logs only the `lastSeen` touch — the bulk delete is
skipped for the empty drain. -/
theorem C2_mailbox_drain (v w w2 now now2 : Nat) (db0 : DBState) (uuid uuid2 R : List Nat)
    (ts : List (List Nat × Nat × List Nat)) (hR : R.length = 16) (hw : w < 256)
    (hw2 : w2 < 256) (h0 : get_messages_for_client db0 R = []) :
    ∃ db2,
      handle_request v (enqueueAll db0 R ts) uuid now
          (RequestHeader.pack ⟨R, w, 1104, 0⟩ ++ []) =
        some (db2,
          ResponseHeader.pack ⟨v, 2104,
            (((mkMsgs db0.nextMessageId R ts).map
                (fun m => PulledMessage.pack (toPulledRecord m))).flatten).length⟩ ++
            ((mkMsgs db0.nextMessageId R ts).map
                (fun m => PulledMessage.pack (toPulledRecord m))).flatten) ∧
      get_messages_for_client db2 R = [] ∧
      handle_request v db2 uuid2 now2 (RequestHeader.pack ⟨R, w2, 1104, 0⟩ ++ []) =
        some (update_last_seen db2 R now2, ResponseHeader.pack ⟨v, 2104, 0⟩ ++ []) ∧
      (update_last_seen db2 R now2).messages = db2.messages ∧
      (update_last_seen db2 R now2).log = db2.log ++ [DMOp.updateLastSeen R] := by
  have hM : get_messages_for_client (enqueueAll db0 R ts) R =
      mkMsgs db0.nextMessageId R ts := by
    rw [get_messages_enqueueAll, h0, List.nil_append]
  have hMt : get_messages_for_client (update_last_seen (enqueueAll db0 R ts) R now) R =
      mkMsgs db0.nextMessageId R ts := hM
  have hD : get_messages_for_client
      (if (mkMsgs db0.nextMessageId R ts).map (fun m => m.id) ≠ [] then
         delete_messages (update_last_seen (enqueueAll db0 R ts) R now)
           ((mkMsgs db0.nextMessageId R ts).map (fun m => m.id))
       else update_last_seen (enqueueAll db0 R ts) R now) R = [] := by
    by_cases hts : (mkMsgs db0.nextMessageId R ts).map (fun m => m.id) = []
    · rw [if_neg (by simpa using hts), hMt]
      exact List.map_eq_nil_iff.mp hts
    · rw [if_pos hts]
      have hdel := get_messages_after_delete (update_last_seen (enqueueAll db0 R ts) R now) R
      rw [hMt] at hdel
      exact hdel
  have hDt : get_messages_for_client
      (update_last_seen
        (if (mkMsgs db0.nextMessageId R ts).map (fun m => m.id) ≠ [] then
           delete_messages (update_last_seen (enqueueAll db0 R ts) R now)
             ((mkMsgs db0.nextMessageId R ts).map (fun m => m.id))
         else update_last_seen (enqueueAll db0 R ts) R now) R now2) R = [] := hD
  refine ⟨if (mkMsgs db0.nextMessageId R ts).map (fun m => m.id) ≠ [] then
            delete_messages (update_last_seen (enqueueAll db0 R ts) R now)
              ((mkMsgs db0.nextMessageId R ts).map (fun m => m.id))
          else update_last_seen (enqueueAll db0 R ts) R now, ?_, hD, ?_, rfl, rfl⟩
  · rw [handle_request_pull v w now (enqueueAll db0 R ts) uuid R [] 0 hR hw (by norm_num) rfl]
    rw [handle_pull_messages_eq]
    simp only [hMt]
  · rw [handle_request_pull v w2 now2 _ uuid2 R [] 0 hR hw2 (by norm_num) rfl]
    rw [handle_pull_messages_eq]
    simp only [hDt]
    rfl

/-- C2 witness: two messages enqueued for a recipient, then pulled, then
pulled again. -/
theorem C2_mailbox_drain_witness :
    ∃ db2,
      handle_request 2 (enqueueAll DBState.init (List.replicate 16 4)
          [(List.replicate 16 3, 3, [104, 105]), (List.replicate 16 5, 2, [33])])
          (List.replicate 16 9) 7 (RequestHeader.pack ⟨List.replicate 16 4, 2, 1104, 0⟩ ++ []) =
        some (db2,
          ResponseHeader.pack ⟨2, 2104,
            (((mkMsgs DBState.init.nextMessageId (List.replicate 16 4)
                  [(List.replicate 16 3, 3, [104, 105]), (List.replicate 16 5, 2, [33])]).map
                (fun m => PulledMessage.pack (toPulledRecord m))).flatten).length⟩ ++
            ((mkMsgs DBState.init.nextMessageId (List.replicate 16 4)
                  [(List.replicate 16 3, 3, [104, 105]), (List.replicate 16 5, 2, [33])]).map
                (fun m => PulledMessage.pack (toPulledRecord m))).flatten) ∧
      get_messages_for_client db2 (List.replicate 16 4) = [] ∧
      handle_request 2 db2 (List.replicate 16 8) 9
          (RequestHeader.pack ⟨List.replicate 16 4, 3, 1104, 0⟩ ++ []) =
        some (update_last_seen db2 (List.replicate 16 4) 9,
              ResponseHeader.pack ⟨2, 2104, 0⟩ ++ []) ∧
      (update_last_seen db2 (List.replicate 16 4) 9).messages = db2.messages ∧
      (update_last_seen db2 (List.replicate 16 4) 9).log =
        db2.log ++ [DMOp.updateLastSeen (List.replicate 16 4)] :=
  C2_mailbox_drain 2 2 3 7 9 DBState.init (List.replicate 16 9) (List.replicate 16 8)
    (List.replicate 16 4) [(List.replicate 16 3, 3, [104, 105]), (List.replicate 16 5, 2, [33])]
    (by decide) (by decide) (by decide) (by decide)

end MessageU
